import Mathlib

/-!
Shallow embedding of the numeric core of the VCweek-StockMarket repository:
the Black-Scholes pricer and its Abramowitz–Stegun normal-CDF approximation,
the two Greeks calculators (analytic, in the options service of `part_000`,
and finite-difference, in the options service of `part_001`), the implied
volatility solver, the strategy P&L evaluator with its breakeven/max-profit
placeholders, and the Monte Carlo investment simulator.

JavaScript numbers are modelled as real numbers (`ℝ`) where the code uses
transcendental functions (`Math.exp`, `Math.log`, `Math.sqrt`, `Math.cos`),
and as rationals (`ℚ`) where the code only performs field operations,
`Math.max`, `Math.floor` and array indexing, so those parts stay executable.
-/

open Real

noncomputable section

/-- Option kind, the `'call' | 'put'` strings of the source. -/
inductive OptionType where
  | call
  | put
deriving DecidableEq

/-! ### Shared Abramowitz–Stegun coefficients

Both options services hard-code the same five coefficients `a1..a5` and `p`
(in `normalCDF` of `part_000` and in `erf` of `part_001`). -/

def c_a1 : ℝ := 0.254829592
def c_a2 : ℝ := -0.284496736
def c_a3 : ℝ := 1.421413741
def c_a4 : ℝ := -1.453152027
def c_a5 : ℝ := 1.061405429
def c_p : ℝ := 0.3275911

/-- The Horner chain `(((((a5*t + a4)*t) + a3)*t + a2)*t + a1)*t` shared by
`normalCDF` (`part_000`) and `erf` (`part_001`). -/
def erfPoly (t : ℝ) : ℝ :=
  (((((c_a5 * t + c_a4) * t) + c_a3) * t + c_a2) * t + c_a1) * t

namespace Part000

/-- `normalCDF(x)` from `part_000`: A&S approximation of the standard normal CDF. -/
def normalCDF (x : ℝ) : ℝ :=
  let s : ℝ := if x < 0 then -1 else 1
  let x' := |x| / Real.sqrt 2.0
  let t := 1.0 / (1.0 + c_p * x')
  let y := 1.0 - erfPoly t * Real.exp (-(x' * x'))
  0.5 * (1.0 + s * y)

/-- `normalPDF(x)` from `part_000`. -/
def normalPDF (x : ℝ) : ℝ :=
  Real.exp (-0.5 * x * x) / Real.sqrt (2 * Real.pi)

/-- Numerator of the `d1` expression of `blackScholesPrice`:
`Math.log(S / K) + (r + 0.5 * sigma * sigma) * T`. -/
def bsD1Num (S K T r sigma : ℝ) : ℝ :=
  Real.log (S / K) + (r + 0.5 * sigma * sigma) * T

/-- Denominator of the `d1` expression of `blackScholesPrice`:
`sigma * Math.sqrt(T)`.  At `T = 0` this is `0`: the source divides by it
unconditionally. -/
def bsD1Den (S K T r sigma : ℝ) : ℝ :=
  sigma * Real.sqrt T

/-- `d1` as computed inline by `blackScholesPrice`, `calculateGreeks` and
`calculateVega` in `part_000`. -/
def bsD1 (S K T r sigma : ℝ) : ℝ :=
  bsD1Num S K T r sigma / bsD1Den S K T r sigma

/-- `blackScholesPrice(S, K, T, r, sigma, optionType)` from `part_000`.
No special case for `T = 0`: the formula is evaluated unconditionally. -/
def blackScholesPrice (S K T r sigma : ℝ) (optionType : OptionType) : ℝ :=
  let d1 := bsD1 S K T r sigma
  let d2 := d1 - sigma * Real.sqrt T
  match optionType with
  | .call => S * normalCDF d1 - K * Real.exp (-r * T) * normalCDF d2
  | .put => K * Real.exp (-r * T) * normalCDF (-d2) - S * normalCDF (-d1)

/-- `calculateVega(S, K, T, r, sigma)` from `part_000` (raw, per unit of
volatility; the caller divides by 100). -/
def calculateVega (S K T r sigma : ℝ) : ℝ :=
  S * normalPDF (bsD1 S K T r sigma) * Real.sqrt T

/-- The five Greeks returned by `calculateGreeks` in `part_000`. -/
structure Greeks where
  delta : ℝ
  gamma : ℝ
  theta : ℝ
  vega : ℝ
  rho : ℝ

/-- `calculateGreeks(stockPrice, strike, timeToExpiry, interestRate,
volatility, optionType)` from `part_000`: closed-form Greeks, with theta
divided by 365 and vega/rho divided by 100. -/
def calculateGreeks (S K T r sigma : ℝ) (optionType : OptionType) : Greeks :=
  let d1 := bsD1 S K T r sigma
  let d2 := d1 - sigma * Real.sqrt T
  let delta := match optionType with
    | .call => normalCDF d1
    | .put => normalCDF d1 - 1
  let gamma := normalPDF d1 / (S * sigma * Real.sqrt T)
  let theta := match optionType with
    | .call => -(S * normalPDF d1 * sigma) / (2 * Real.sqrt T) -
        r * K * Real.exp (-r * T) * normalCDF d2
    | .put => -(S * normalPDF d1 * sigma) / (2 * Real.sqrt T) +
        r * K * Real.exp (-r * T) * normalCDF (-d2)
  let vega := calculateVega S K T r sigma
  let rho := match optionType with
    | .call => K * T * Real.exp (-r * T) * normalCDF d2
    | .put => -(K * T * Real.exp (-r * T)) * normalCDF (-d2)
  { delta := delta
    gamma := gamma
    theta := theta / 365
    vega := vega / 100
    rho := rho / 100 }

/-- One Newton-Raphson iteration body of `calculateImpliedVolatility` from
`part_000`: update then clamp into `[0.001, 5.0]`. -/
def ivStep (optionPrice S K T r : ℝ) (optionType : OptionType) (iv : ℝ) : ℝ :=
  let theoreticalPrice := blackScholesPrice S K T r iv optionType
  let vega := calculateVega S K T r iv
  let ivUpd := iv - (theoreticalPrice - optionPrice) / vega
  let ivLo := if ivUpd < 0.001 then 0.001 else ivUpd
  if ivLo > 5.0 then 5.0 else ivLo

/-- The `for` loop of `calculateImpliedVolatility` from `part_000`, by the
number of remaining iterations: each iteration first checks the `1e-4`
tolerance (`break`), otherwise updates and clamps. -/
def ivLoop (optionPrice S K T r : ℝ) (optionType : OptionType) : ℕ → ℝ → ℝ
  | 0, iv => iv
  | n + 1, iv =>
    if |blackScholesPrice S K T r iv optionType - optionPrice| < 0.0001 then iv
    else ivLoop optionPrice S K T r optionType n (ivStep optionPrice S K T r optionType iv)

/-- `calculateImpliedVolatility(optionPrice, stockPrice, strike, timeToExpiry,
interestRate, optionType)` from `part_000`: Newton-Raphson from the initial
guess `0.2`, at most 100 iterations, returning the bare final estimate
(a single number; no convergence flag). -/
def calculateImpliedVolatility (optionPrice S K T r : ℝ)
    (optionType : OptionType) : ℝ :=
  ivLoop optionPrice S K T r optionType 100 0.2

end Part000

namespace Part001

/-- The `y` value of `erf(x)` in `part_001` for a non-negative argument:
`1.0 - (((((a5*t + a4)*t) + a3)*t + a2)*t + a1)*t * Math.exp(-x*x)` with
`t = 1/(1 + p*x)`. -/
def erfY (x : ℝ) : ℝ :=
  let t := 1.0 / (1.0 + c_p * x)
  1.0 - erfPoly t * Real.exp (-(x * x))

/-- `erf(x)` from `part_001`: sign extraction, then the A&S approximation on
the absolute value. -/
def erf (x : ℝ) : ℝ :=
  (if x < 0 then (-1 : ℝ) else 1) * erfY |x|

/-- The local `N` of `blackScholes` in `part_001`:
`0.5 * (1 + erf(x / Math.sqrt(2)))`. -/
def normalN (x : ℝ) : ℝ :=
  0.5 * (1 + erf (x / Real.sqrt 2))

/-- `blackScholes(S, K, T, r, sigma, optionType)` from `part_001`.
Like the pricer in `part_000` it evaluates `d1 = .../(sigma*sqrt T)`
unconditionally, with no `T = 0` special case. -/
def blackScholes (S K T r sigma : ℝ) (optionType : OptionType) : ℝ :=
  let d1 := (Real.log (S / K) + (r + 0.5 * sigma * sigma) * T) / (sigma * Real.sqrt T)
  let d2 := d1 - sigma * Real.sqrt T
  match optionType with
  | .call => S * normalN d1 - K * Real.exp (-r * T) * normalN d2
  | .put => K * Real.exp (-r * T) * normalN (-d2) - S * normalN (-d1)

/-- The record returned by `calculateGreeks` in `part_001` (price plus the
five finite-difference Greeks, all raw: no /365 or /100 scaling). -/
structure GreeksFD where
  price : ℝ
  delta : ℝ
  gamma : ℝ
  theta : ℝ
  vega : ℝ
  rho : ℝ

/-- `calculateGreeks(S, K, T, r, sigma, optionType)` from `part_001`:
finite-difference Greeks with steps `dt = 0.001`, `dS = 0.01`,
`dsigma = 0.001`, `dr = 0.001`. -/
def calculateGreeks (S K T r sigma : ℝ) (optionType : OptionType) : GreeksFD :=
  let dt : ℝ := 0.001
  let dS : ℝ := 0.01
  let dsigma : ℝ := 0.001
  let dr : ℝ := 0.001
  let price := blackScholes S K T r sigma optionType
  let priceUp := blackScholes (S + dS) K T r sigma optionType
  let delta := (priceUp - price) / dS
  let priceDown := blackScholes (S - dS) K T r sigma optionType
  let gamma := (priceUp - 2 * price + priceDown) / (dS * dS)
  let priceTheta := blackScholes S K (T - dt) r sigma optionType
  let theta := -(priceTheta - price) / dt
  let priceVega := blackScholes S K T r (sigma + dsigma) optionType
  let vega := (priceVega - price) / dsigma
  let priceRho := blackScholes S K T (r + dr) sigma optionType
  let rho := (priceRho - price) / dr
  { price := price
    delta := delta
    gamma := gamma
    theta := theta
    vega := vega
    rho := rho }

end Part001

namespace Simulator

/-- `generateNormalRandom(mean, stdDev)` from `investmentSimulator.js`, with
the two uniform draws `u, v` made explicit arguments (the source loops on
`Math.random()` until both are nonzero): Box-Muller transform
`z = √(−2·ln u)·cos(2π·v)`, returning `mean + z·stdDev`. -/
def generateNormalRandom (mean stdDev u v : ℝ) : ℝ :=
  let z := Real.sqrt (-2.0 * Real.log u) * Real.cos (2.0 * Real.pi * v)
  mean + z * stdDev

/-- `runMonteCarloSimulation(initialAmount, expectedReturn, volatility,
iterations)` from `investmentSimulator.js`, with the random streams `u, v`
made explicit: each trial pushes
`initialAmount * (1 + generateNormalRandom(expectedReturn, volatility))`. -/
def runMonteCarloSimulation (initialAmount expectedReturn volatility : ℝ)
    (iterations : ℕ) (u v : ℕ → ℝ) : List ℝ :=
  (List.range iterations).map fun i =>
    initialAmount * (1 + generateNormalRandom expectedReturn volatility (u i) (v i))

end Simulator

namespace Spec

/-- The spec's `d1` formula (§4.1):
`d1 = (ln(S/K) + (r + 0.5·sigma²)·T) / (sigma·√T)`. -/
def specD1 (S K T r sigma : ℝ) : ℝ :=
  (Real.log (S / K) + (r + 0.5 * sigma ^ 2) * T) / (sigma * Real.sqrt T)

/-- The spec's `d2` formula (§4.1): `d2 = d1 − sigma·√T`. -/
def specD2 (S K T r sigma : ℝ) : ℝ :=
  specD1 S K T r sigma - sigma * Real.sqrt T

end Spec

end

/-! ### Strategy evaluator (rational arithmetic, executable) -/

/-- Instrument kind of a strategy leg (`leg.type` in `part_000`:
`'stock' | 'call' | 'put'`). -/
inductive LegType where
  | stock
  | call
  | put
deriving DecidableEq

/-- `leg.action` in `part_000`: `'buy' | 'sell'`. -/
inductive LegAction where
  | buy
  | sell
deriving DecidableEq

/-- One strategy leg as consumed by `calculateStrategyPnL` in `part_000`.
Stock legs never read `strike`/`premium`; they are kept as plain fields. -/
structure Leg where
  type : LegType
  action : LegAction
  quantity : ℚ
  strike : ℚ
  premium : ℚ
deriving DecidableEq

/-- A strategy as consumed by `calculateStrategyPnL` (`strategy.legs`). -/
structure Strategy where
  legs : List Leg
deriving DecidableEq

namespace Part000

/-- `calculateStrategyPnL(strategy, stockPrices, currentStockPrice)` from
`part_000`: for each swept price, accumulate the per-leg P&L
(`totalPnL += ...` over `strategy.legs`) and return the
`{stockPrice, pnl}` pairs. -/
def calculateStrategyPnL (strategy : Strategy) (stockPrices : List ℚ)
    (currentStockPrice : ℚ) : List (ℚ × ℚ) :=
  stockPrices.map fun price =>
    let totalPnL := strategy.legs.foldl (fun acc leg =>
      match leg.type with
      | LegType.stock =>
        acc + (match leg.action with
          | LegAction.buy => (price - currentStockPrice) * leg.quantity
          | LegAction.sell => (currentStockPrice - price) * leg.quantity)
      | _ =>
        let intrinsicValue := match leg.type with
          | LegType.call => max 0 (price - leg.strike)
          | _ => max 0 (leg.strike - price)
        acc + (match leg.action with
          | LegAction.buy => (intrinsicValue - leg.premium) * leg.quantity * 100
          | LegAction.sell => (leg.premium - intrinsicValue) * leg.quantity * 100)) 0
    (price, totalPnL)

/-- `calculateBreakevens(legs, stockPrice)` from `part_000`: the body only
declares an empty array and returns it (the comments call it a simplified
placeholder). -/
def calculateBreakevens (legs : List Leg) (stockPrice : ℚ) : List ℚ :=
  let breakevens : List ℚ := []
  breakevens

/-- `calculateMaxProfit(legs)` from `part_000`: the string placeholder
`'Unlimited'`. -/
def calculateMaxProfit (legs : List Leg) : String :=
  "Unlimited"

/-- `calculateMaxLoss(legs)` from `part_000`: the string placeholder
`'Limited'`. -/
def calculateMaxLoss (legs : List Leg) : String :=
  "Limited"

end Part000

namespace Simulator

/-- The `lowerIndex` of `calculateConfidenceIntervals` in
`investmentSimulator.js`: `Math.floor(n * (alpha / 2))` with
`alpha = 1 - confidenceLevel`. -/
def ciLowerIndex (n : ℕ) (confidenceLevel : ℚ) : ℤ :=
  let alpha := 1 - confidenceLevel
  ⌊(n : ℚ) * (alpha / 2)⌋

/-- The `upperIndex` of `calculateConfidenceIntervals`:
`Math.floor(n * (1 - alpha / 2))`. -/
def ciUpperIndex (n : ℕ) (confidenceLevel : ℚ) : ℤ :=
  let alpha := 1 - confidenceLevel
  ⌊(n : ℚ) * (1 - alpha / 2)⌋

/-- `calculateConfidenceIntervals(sortedResults, confidenceLevel)` from
`investmentSimulator.js`: reads the sorted outcomes at `lowerIndex` and
`upperIndex` (JavaScript indexing; out-of-range reads would give
`undefined`, modelled by the default value `0`). -/
def calculateConfidenceIntervals (sortedResults : List ℚ)
    (confidenceLevel : ℚ) : ℚ × ℚ :=
  (sortedResults.getD (ciLowerIndex sortedResults.length confidenceLevel).toNat 0,
   sortedResults.getD (ciUpperIndex sortedResults.length confidenceLevel).toNat 0)

end Simulator

namespace Spec

/-- Modelled from the spec (§4.4): the per-leg P&L contribution at swept
price `p` — `(p − currentPrice)·quantity` for a bought stock leg,
`(currentPrice − p)·quantity` for a sold one, and
`(intrinsic − premium)·quantity·100` / `(premium − intrinsic)·quantity·100`
for bought / sold option legs with `intrinsic = max(0, p−strike)` for a
call and `max(0, strike−p)` for a put. -/
def specLegPnL (currentPrice p : ℚ) (leg : Leg) : ℚ :=
  match leg.type, leg.action with
  | LegType.stock, LegAction.buy => (p - currentPrice) * leg.quantity
  | LegType.stock, LegAction.sell => (currentPrice - p) * leg.quantity
  | LegType.call, LegAction.buy => (max 0 (p - leg.strike) - leg.premium) * leg.quantity * 100
  | LegType.call, LegAction.sell => (leg.premium - max 0 (p - leg.strike)) * leg.quantity * 100
  | LegType.put, LegAction.buy => (max 0 (leg.strike - p) - leg.premium) * leg.quantity * 100
  | LegType.put, LegAction.sell => (leg.premium - max 0 (leg.strike - p)) * leg.quantity * 100

end Spec

/-! ## Helper lemmas -/

/-- Folding `acc + f x` over a list from any start equals start plus the sum
of the mapped list. -/
theorem foldl_add_map_sum (f : Leg → ℚ) :
    ∀ (l : List Leg) (a : ℚ), l.foldl (fun acc x => acc + f x) a = a + (l.map f).sum := by
  intro l
  induction l with
  | nil => intro a; simp
  | cons x xs ih =>
    intro a
    simp [List.foldl_cons, ih, add_assoc]

/-! ## Claims -/

/-- Claim C7: for every list of legs, current price and swept price, the
strategy evaluator's total P&L is the sum over legs of the per-leg P&L:
`(p−currentPrice)·qty` / `(currentPrice−p)·qty` for bought/sold stock, and
`(intrinsic−premium)·qty·100` / `(premium−intrinsic)·qty·100` for
bought/sold options with `intrinsic = max(0, p−strike)` (call) or
`max(0, strike−p)` (put). -/
theorem c7_strategy_pnl_is_sum_of_leg_pnls (strategy : Strategy)
    (stockPrices : List ℚ) (currentStockPrice : ℚ) :
    Part000.calculateStrategyPnL strategy stockPrices currentStockPrice =
      stockPrices.map fun p =>
        (p, (strategy.legs.map (Spec.specLegPnL currentStockPrice p)).sum) := by
  unfold Part000.calculateStrategyPnL
  refine List.map_congr_left fun p _ => ?_
  have hfun : (fun (acc : ℚ) (leg : Leg) =>
      match leg.type with
      | LegType.stock =>
        acc + (match leg.action with
          | LegAction.buy => (p - currentStockPrice) * leg.quantity
          | LegAction.sell => (currentStockPrice - p) * leg.quantity)
      | _ =>
        let intrinsicValue := match leg.type with
          | LegType.call => max 0 (p - leg.strike)
          | _ => max 0 (leg.strike - p)
        acc + (match leg.action with
          | LegAction.buy => (intrinsicValue - leg.premium) * leg.quantity * 100
          | LegAction.sell => (leg.premium - intrinsicValue) * leg.quantity * 100)) =
      fun acc leg => acc + Spec.specLegPnL currentStockPrice p leg := by
    funext acc leg
    obtain ⟨t, a, q, st, pr⟩ := leg
    cases t <;> cases a <;> rfl
  rw [hfun, foldl_add_map_sum, zero_add]

/-- Claim C3 (code bug): for the bull call spread (long 100-call at premium
5, short 110-call at premium 2) around current price 100, the swept P&L is
−300 at 100 and +700 at 110 — a sign change — yet `calculateBreakevens`
returns the empty list and `calculateMaxProfit` the string placeholder
`'Unlimited'`: no numeric root-finding happens. -/
theorem c3_breakevens_are_placeholders :
    Part000.calculateBreakevens
        [⟨LegType.call, LegAction.buy, 1, 100, 5⟩,
         ⟨LegType.call, LegAction.sell, 1, 110, 2⟩] 100 = [] ∧
      Part000.calculateMaxProfit
        [⟨LegType.call, LegAction.buy, 1, 100, 5⟩,
         ⟨LegType.call, LegAction.sell, 1, 110, 2⟩] = "Unlimited" ∧
      Part000.calculateStrategyPnL
        ⟨[⟨LegType.call, LegAction.buy, 1, 100, 5⟩,
          ⟨LegType.call, LegAction.sell, 1, 110, 2⟩]⟩ [100, 110] 100 =
        [(100, -300), (110, 700)] := by
  refine ⟨rfl, rfl, ?_⟩
  norm_num [Part000.calculateStrategyPnL, max_def]

/-- Claim C10: for a non-empty sorted results list and a confidence level
strictly between 0 and 1, the confidence-interval indices satisfy
`0 ≤ lowerIndex ≤ upperIndex ≤ n−1`, both accesses are in bounds, and the
returned lower bound is at most the returned upper bound. -/
theorem c10_confidence_indices_in_bounds (l : List ℚ) (c : ℚ)
    (hne : l ≠ []) (hsort : l.Sorted (· ≤ ·)) (hc0 : 0 < c) (hc1 : c < 1) :
    0 ≤ Simulator.ciLowerIndex l.length c ∧
      Simulator.ciLowerIndex l.length c ≤ Simulator.ciUpperIndex l.length c ∧
      Simulator.ciUpperIndex l.length c ≤ (l.length : ℤ) - 1 ∧
      (Simulator.calculateConfidenceIntervals l c).1 ≤
        (Simulator.calculateConfidenceIntervals l c).2 := by
  have hn : 0 < l.length := List.length_pos.2 hne
  have hnq : (0 : ℚ) < (l.length : ℚ) := by exact_mod_cast hn
  have hlo : 0 ≤ Simulator.ciLowerIndex l.length c := by
    unfold Simulator.ciLowerIndex
    refine Int.le_floor.2 ?_
    push_cast
    nlinarith
  have hmono : Simulator.ciLowerIndex l.length c ≤ Simulator.ciUpperIndex l.length c := by
    unfold Simulator.ciLowerIndex Simulator.ciUpperIndex
    refine Int.floor_le_floor ?_
    nlinarith
  have hupn : Simulator.ciUpperIndex l.length c < (l.length : ℤ) := by
    unfold Simulator.ciUpperIndex
    refine Int.floor_lt.2 ?_
    push_cast
    nlinarith
  have hup : Simulator.ciUpperIndex l.length c ≤ (l.length : ℤ) - 1 := by omega
  refine ⟨hlo, hmono, hup, ?_⟩
  have hiLt : (Simulator.ciLowerIndex l.length c).toNat < l.length := by omega
  have hjLt : (Simulator.ciUpperIndex l.length c).toNat < l.length := by omega
  have hij : (Simulator.ciLowerIndex l.length c).toNat ≤
      (Simulator.ciUpperIndex l.length c).toNat := by omega
  unfold Simulator.calculateConfidenceIntervals
  simp only [List.getD_eq_getElem?_getD, List.getElem?_eq_getElem hiLt,
    List.getElem?_eq_getElem hjLt, Option.getD_some]
  rcases lt_or_eq_of_le hij with hlt | heq
  · exact List.pairwise_iff_getElem.mp hsort _ _ hiLt hjLt hlt
  · simp [heq]

/-- Claim C9: with `expectedReturn = 0` and `volatility = 0`, the Monte
Carlo simulation produces 10,000 outcomes all exactly equal to
`initialAmount`, for any streams of uniform draws in (0,1). -/
theorem c9_monte_carlo_zero_vol_is_constant (initialAmount : ℝ) (u v : ℕ → ℝ)
    (hu : ∀ i, 0 < u i ∧ u i < 1) (hv : ∀ i, 0 < v i ∧ v i < 1) :
    (Simulator.runMonteCarloSimulation initialAmount 0 0 10000 u v).length = 10000 ∧
      ∀ x ∈ Simulator.runMonteCarloSimulation initialAmount 0 0 10000 u v,
        x = initialAmount := by
  constructor
  · simp [Simulator.runMonteCarloSimulation]
  · intro x hx
    simp only [Simulator.runMonteCarloSimulation, Simulator.generateNormalRandom,
      List.mem_map, List.mem_range] at hx
    obtain ⟨i, _, hx⟩ := hx
    rw [← hx]
    ring

/-- Witness for C9 at `initialAmount = 1000` and the constant streams 1/2. -/
theorem c9_monte_carlo_zero_vol_is_constant_witness :
    (∀ i : ℕ, 0 < ((fun _ : ℕ => (1 : ℝ) / 2) i) ∧ ((fun _ : ℕ => (1 : ℝ) / 2) i) < 1) ∧
      ((Simulator.runMonteCarloSimulation 1000 0 0 10000
          (fun _ => (1 : ℝ) / 2) (fun _ => (1 : ℝ) / 2)).length = 10000 ∧
        ∀ x ∈ Simulator.runMonteCarloSimulation 1000 0 0 10000
            (fun _ => (1 : ℝ) / 2) (fun _ => (1 : ℝ) / 2), x = 1000) :=
  ⟨fun _ => ⟨by norm_num, by norm_num⟩,
    c9_monte_carlo_zero_vol_is_constant 1000 _ _
      (fun _ => ⟨by norm_num, by norm_num⟩) (fun _ => ⟨by norm_num, by norm_num⟩)⟩

/-- Witness for C10 on the sorted list `[1, 2, 3]` at confidence level 1/2. -/
theorem c10_confidence_indices_in_bounds_witness :
    (([1, 2, 3] : List ℚ) ≠ [] ∧ ([1, 2, 3] : List ℚ).Sorted (· ≤ ·) ∧
        (0 : ℚ) < 1 / 2 ∧ (1 : ℚ) / 2 < 1) ∧
      (0 ≤ Simulator.ciLowerIndex ([1, 2, 3] : List ℚ).length (1 / 2) ∧
        Simulator.ciLowerIndex ([1, 2, 3] : List ℚ).length (1 / 2) ≤
          Simulator.ciUpperIndex ([1, 2, 3] : List ℚ).length (1 / 2) ∧
        Simulator.ciUpperIndex ([1, 2, 3] : List ℚ).length (1 / 2) ≤
          (([1, 2, 3] : List ℚ).length : ℤ) - 1 ∧
        (Simulator.calculateConfidenceIntervals ([1, 2, 3] : List ℚ) (1 / 2)).1 ≤
          (Simulator.calculateConfidenceIntervals ([1, 2, 3] : List ℚ) (1 / 2)).2) :=
  ⟨⟨by decide, by decide, by norm_num, by norm_num⟩,
    c10_confidence_indices_in_bounds [1, 2, 3] (1 / 2)
      (by decide) (by decide) (by norm_num) (by norm_num)⟩

/-- One clamped Newton step of the implied-volatility solver always lands in
`[0.001, 5]`. -/
theorem ivStep_mem_clamp_range (optionPrice S K T r : ℝ) (optionType : OptionType)
    (iv : ℝ) :
    0.001 ≤ Part000.ivStep optionPrice S K T r optionType iv ∧
      Part000.ivStep optionPrice S K T r optionType iv ≤ 5 := by
  unfold Part000.ivStep
  dsimp only
  split_ifs with h1 h2 h3 <;>
    push_neg at * <;>
    constructor <;>
    linarith

/-- The solver loop started anywhere in `[0.001, 5]` stays in `[0.001, 5]`. -/
theorem ivLoop_mem_clamp_range (optionPrice S K T r : ℝ) (optionType : OptionType) :
    ∀ (n : ℕ) (iv : ℝ), 0.001 ≤ iv → iv ≤ 5 →
      0.001 ≤ Part000.ivLoop optionPrice S K T r optionType n iv ∧
        Part000.ivLoop optionPrice S K T r optionType n iv ≤ 5 := by
  intro n
  induction n with
  | zero => intro iv h1 h2; exact ⟨h1, h2⟩
  | succ m ih =>
    intro iv h1 h2
    rw [Part000.ivLoop]
    split_ifs with h
    · exact ⟨h1, h2⟩
    · exact ih _ (ivStep_mem_clamp_range optionPrice S K T r optionType iv).1
        (ivStep_mem_clamp_range optionPrice S K T r optionType iv).2

/-- Claim C8 (code bug): at a market price of 1000 (far above any
Black-Scholes value of a 100-strike option on a 100-stock, so the Newton
iteration cannot converge), the solver still returns only a bare clamped
number in `[0.001, 5]` — there is no `{sigma, converged}` record and a
capped-out run is indistinguishable from a converged one. -/
theorem c8_iv_returns_bare_clamped_number :
    0.001 ≤ Part000.calculateImpliedVolatility 1000 100 100 1 0.05 OptionType.call ∧
      Part000.calculateImpliedVolatility 1000 100 100 1 0.05 OptionType.call ≤ 5 := by
  unfold Part000.calculateImpliedVolatility
  exact ivLoop_mem_clamp_range 1000 100 100 1 0.05 OptionType.call 100 0.2
    (by norm_num) (by norm_num)

/-- Claim C1 (code bug): at `T = 0` (with `S = K = 100`, `r = 0.05`,
`sigma = 0.2`) the pricer does not special-case: it evaluates the `d1`
formula, whose denominator `sigma·√T` and numerator
`ln(S/K) + (r + 0.5·sigma²)·T` are both 0 — i.e. the JavaScript computes
`0/0 = NaN` and the returned price is NaN, not the intrinsic value 0. -/
theorem c1_t0_is_division_of_zero_by_zero :
    Part000.bsD1Den 100 100 0 0.05 0.2 = 0 ∧
      Part000.bsD1Num 100 100 0 0.05 0.2 = 0 := by
  constructor
  · simp [Part000.bsD1Den]
  · unfold Part000.bsD1Num
    have h : (100 : ℝ) / 100 = 1 := by norm_num
    rw [h, Real.log_one]
    ring

/-- The inline `d1` of the source equals the spec's `d1` formula
(`0.5·sigma·sigma` versus `0.5·sigma²`). -/
theorem bsD1_eq_specD1 (S K T r sigma : ℝ) :
    Part000.bsD1 S K T r sigma = Spec.specD1 S K T r sigma := by
  unfold Part000.bsD1 Part000.bsD1Num Part000.bsD1Den Spec.specD1
  congr 1
  ring

/-- Claim C2: for positive `S, K, T, sigma` and any `r`, the pricer returns
`S·Φ(d1) − K·e^(−rT)·Φ(d2)` for a call and `K·e^(−rT)·Φ(−d2) − S·Φ(−d1)`
for a put, with `d1 = (ln(S/K) + (r + 0.5·sigma²)·T)/(sigma·√T)`,
`d2 = d1 − sigma·√T`, and `Φ` the implemented `normalCDF`. -/
theorem c2_pricer_matches_spec_formula (S K T r sigma : ℝ)
    (hS : 0 < S) (hK : 0 < K) (hT : 0 < T) (hsigma : 0 < sigma) :
    Part000.blackScholesPrice S K T r sigma OptionType.call =
        S * Part000.normalCDF (Spec.specD1 S K T r sigma) -
          K * Real.exp (-r * T) * Part000.normalCDF (Spec.specD2 S K T r sigma) ∧
      Part000.blackScholesPrice S K T r sigma OptionType.put =
        K * Real.exp (-r * T) * Part000.normalCDF (-Spec.specD2 S K T r sigma) -
          S * Part000.normalCDF (-Spec.specD1 S K T r sigma) := by
  unfold Part000.blackScholesPrice Spec.specD2
  rw [bsD1_eq_specD1]
  exact ⟨rfl, rfl⟩

/-- Witness for C2 at `S=100, K=100, T=1, r=0.05, sigma=0.2`. -/
theorem c2_pricer_matches_spec_formula_witness :
    ((0 : ℝ) < 100 ∧ (0 : ℝ) < 100 ∧ (0 : ℝ) < 1 ∧ (0 : ℝ) < 0.2) ∧
      (Part000.blackScholesPrice 100 100 1 0.05 0.2 OptionType.call =
          100 * Part000.normalCDF (Spec.specD1 100 100 1 0.05 0.2) -
            100 * Real.exp (-0.05 * 1) * Part000.normalCDF (Spec.specD2 100 100 1 0.05 0.2) ∧
        Part000.blackScholesPrice 100 100 1 0.05 0.2 OptionType.put =
          100 * Real.exp (-0.05 * 1) * Part000.normalCDF (-Spec.specD2 100 100 1 0.05 0.2) -
            100 * Part000.normalCDF (-Spec.specD1 100 100 1 0.05 0.2)) :=
  ⟨⟨by norm_num, by norm_num, by norm_num, by norm_num⟩,
    c2_pricer_matches_spec_formula 100 100 1 0.05 0.2
      (by norm_num) (by norm_num) (by norm_num) (by norm_num)⟩

/-- Claim C5: the analytic Greeks calculator returns `delta = Φ(d1)` (call)
/ `Φ(d1) − 1` (put), `gamma = φ(d1)/(S·sigma·√T)` for both kinds,
`vega = S·φ(d1)·√T` divided by 100, theta as the standard closed-form
per-year value divided by 365, and rho divided by 100, where `Φ`/`φ` are
the implemented `normalCDF`/`normalPDF`. -/
theorem c5_analytic_greeks_match_spec_formulas (S K T r sigma : ℝ)
    (hS : 0 < S) (hK : 0 < K) (hT : 0 < T) (hsigma : 0 < sigma) :
    Part000.calculateGreeks S K T r sigma OptionType.call =
        ⟨Part000.normalCDF (Spec.specD1 S K T r sigma),
          Part000.normalPDF (Spec.specD1 S K T r sigma) / (S * sigma * Real.sqrt T),
          (-(S * Part000.normalPDF (Spec.specD1 S K T r sigma) * sigma) / (2 * Real.sqrt T) -
            r * K * Real.exp (-r * T) * Part000.normalCDF (Spec.specD2 S K T r sigma)) / 365,
          S * Part000.normalPDF (Spec.specD1 S K T r sigma) * Real.sqrt T / 100,
          K * T * Real.exp (-r * T) * Part000.normalCDF (Spec.specD2 S K T r sigma) / 100⟩ ∧
      Part000.calculateGreeks S K T r sigma OptionType.put =
        ⟨Part000.normalCDF (Spec.specD1 S K T r sigma) - 1,
          Part000.normalPDF (Spec.specD1 S K T r sigma) / (S * sigma * Real.sqrt T),
          (-(S * Part000.normalPDF (Spec.specD1 S K T r sigma) * sigma) / (2 * Real.sqrt T) +
            r * K * Real.exp (-r * T) * Part000.normalCDF (-Spec.specD2 S K T r sigma)) / 365,
          S * Part000.normalPDF (Spec.specD1 S K T r sigma) * Real.sqrt T / 100,
          -(K * T * Real.exp (-r * T)) * Part000.normalCDF (-Spec.specD2 S K T r sigma) / 100⟩ := by
  unfold Part000.calculateGreeks Part000.calculateVega Spec.specD2
  rw [bsD1_eq_specD1]
  exact ⟨rfl, rfl⟩

/-- Witness for C5 at `S=100, K=100, T=1, r=0.05, sigma=0.2` (call leg of
the conjunction shown). -/
theorem c5_analytic_greeks_match_spec_formulas_witness :
    ((0 : ℝ) < 100 ∧ (0 : ℝ) < 100 ∧ (0 : ℝ) < 1 ∧ (0 : ℝ) < 0.2) ∧
      (Part000.calculateGreeks 100 100 1 0.05 0.2 OptionType.call =
          ⟨Part000.normalCDF (Spec.specD1 100 100 1 0.05 0.2),
            Part000.normalPDF (Spec.specD1 100 100 1 0.05 0.2) / (100 * 0.2 * Real.sqrt 1),
            (-(100 * Part000.normalPDF (Spec.specD1 100 100 1 0.05 0.2) * 0.2) / (2 * Real.sqrt 1) -
              0.05 * 100 * Real.exp (-0.05 * 1) *
                Part000.normalCDF (Spec.specD2 100 100 1 0.05 0.2)) / 365,
            100 * Part000.normalPDF (Spec.specD1 100 100 1 0.05 0.2) * Real.sqrt 1 / 100,
            100 * 1 * Real.exp (-0.05 * 1) *
              Part000.normalCDF (Spec.specD2 100 100 1 0.05 0.2) / 100⟩ ∧
        Part000.calculateGreeks 100 100 1 0.05 0.2 OptionType.put =
          ⟨Part000.normalCDF (Spec.specD1 100 100 1 0.05 0.2) - 1,
            Part000.normalPDF (Spec.specD1 100 100 1 0.05 0.2) / (100 * 0.2 * Real.sqrt 1),
            (-(100 * Part000.normalPDF (Spec.specD1 100 100 1 0.05 0.2) * 0.2) / (2 * Real.sqrt 1) +
              0.05 * 100 * Real.exp (-0.05 * 1) *
                Part000.normalCDF (-Spec.specD2 100 100 1 0.05 0.2)) / 365,
            100 * Part000.normalPDF (Spec.specD1 100 100 1 0.05 0.2) * Real.sqrt 1 / 100,
            -(100 * 1 * Real.exp (-0.05 * 1)) *
              Part000.normalCDF (-Spec.specD2 100 100 1 0.05 0.2) / 100⟩) :=
  ⟨⟨by norm_num, by norm_num, by norm_num, by norm_num⟩,
    c5_analytic_greeks_match_spec_formulas 100 100 1 0.05 0.2
      (by norm_num) (by norm_num) (by norm_num) (by norm_num)⟩

/-- For a nonzero argument the approximate CDF satisfies
`Φ(x) + Φ(−x) = 1` exactly (the `y` term cancels between the two signs). -/
theorem normalCDF_add_neg {x : ℝ} (hx : x ≠ 0) :
    Part000.normalCDF x + Part000.normalCDF (-x) = 1 := by
  unfold Part000.normalCDF
  dsimp only
  rcases hx.lt_or_lt with h | h
  · rw [if_pos h, if_neg (by linarith : ¬-x < 0), abs_neg]
    ring
  · rw [if_neg (by linarith : ¬x < 0), if_pos (by linarith : -x < 0), abs_neg]
    ring

/-- At `x = 0` the approximate CDF does not give 1/2 exactly: the sign is
taken as `+1` and the A&S polynomial at `t = 1` sums to `0.999999999`, so
`Φ(0) = 0.5000000005`. -/
theorem normalCDF_zero : Part000.normalCDF 0 = 0.5000000005 := by
  unfold Part000.normalCDF erfPoly
  dsimp only
  rw [if_neg (by norm_num : ¬(0 : ℝ) < 0), abs_zero, zero_div]
  norm_num [c_a1, c_a2, c_a3, c_a4, c_a5, c_p, Real.exp_zero]

/-- At-the-money `d1` with `T = 1`, `r = 0`, `sigma = 0.2` evaluates to
`0.1`. -/
theorem bsD1_atm_value : Part000.bsD1 100 100 1 0 0.2 = 0.1 := by
  unfold Part000.bsD1 Part000.bsD1Num Part000.bsD1Den
  rw [show (100 : ℝ) / 100 = 1 by norm_num, Real.log_one, Real.sqrt_one]
  norm_num

/-- The `d1` of the C6 counterexample configuration
(`S = K`, `r = −0.02`, `sigma = 0.2`, `T = 1`) is exactly 0. -/
theorem bsD1_c6_value : Part000.bsD1 1000000000 1000000000 1 (-0.02) 0.2 = 0 := by
  unfold Part000.bsD1 Part000.bsD1Num Part000.bsD1Den
  rw [show (1000000000 : ℝ) / 1000000000 = 1 by norm_num, Real.log_one, Real.sqrt_one]
  norm_num

/-- Claim C6 (amended): put-call parity holds exactly — error 0, hence
within 1e-6 — whenever `d1 ≠ 0` and `d2 ≠ 0` (so the sign branch of the
approximate CDF is exercised symmetrically). -/
theorem c6_put_call_parity_exact (S K T r sigma : ℝ)
    (hS : 0 < S) (hK : 0 < K) (hT : 0 < T) (hsigma : 0 < sigma)
    (hd1 : Part000.bsD1 S K T r sigma ≠ 0)
    (hd2 : Part000.bsD1 S K T r sigma - sigma * Real.sqrt T ≠ 0) :
    Part000.blackScholesPrice S K T r sigma OptionType.call -
        Part000.blackScholesPrice S K T r sigma OptionType.put =
      S - K * Real.exp (-r * T) := by
  unfold Part000.blackScholesPrice
  dsimp only
  have h1 := normalCDF_add_neg hd1
  have h2 := normalCDF_add_neg hd2
  linear_combination S * h1 - K * Real.exp (-r * T) * h2

/-- Witness for C6 (amended) at `S=100, K=100, T=1, r=0, sigma=0.2`,
where `d1 = 0.1 ≠ 0` and `d2 = −0.1 ≠ 0`. -/
theorem c6_put_call_parity_exact_witness :
    ((0 : ℝ) < 100 ∧ (0 : ℝ) < 100 ∧ (0 : ℝ) < 1 ∧ (0 : ℝ) < 0.2 ∧
        Part000.bsD1 100 100 1 0 0.2 ≠ 0 ∧
        Part000.bsD1 100 100 1 0 0.2 - 0.2 * Real.sqrt 1 ≠ 0) ∧
      Part000.blackScholesPrice 100 100 1 0 0.2 OptionType.call -
          Part000.blackScholesPrice 100 100 1 0 0.2 OptionType.put =
        100 - 100 * Real.exp (-0 * 1) :=
  ⟨⟨by norm_num, by norm_num, by norm_num, by norm_num,
      by rw [bsD1_atm_value]; norm_num,
      by rw [bsD1_atm_value, Real.sqrt_one]; norm_num⟩,
    c6_put_call_parity_exact 100 100 1 0 0.2
      (by norm_num) (by norm_num) (by norm_num) (by norm_num)
      (by rw [bsD1_atm_value]; norm_num)
      (by rw [bsD1_atm_value, Real.sqrt_one]; norm_num)⟩

/-- Counterexample to C6 as stated: at `S = K = 10⁹`, `T = 1`, `r = −0.02`,
`sigma = 0.2` the configuration makes `d1 = 0` exactly, where
`Φ(0) + Φ(0) = 1 + 10⁻⁹`, so the parity defect is `10⁹·10⁻⁹ = 1`,
far above the claimed 1e-6 tolerance. -/
theorem c6_put_call_parity_counterexample :
    Part000.blackScholesPrice 1000000000 1000000000 1 (-0.02) 0.2 OptionType.call -
        Part000.blackScholesPrice 1000000000 1000000000 1 (-0.02) 0.2 OptionType.put -
        (1000000000 - 1000000000 * Real.exp (-(-0.02) * 1)) = 1 ∧
      ¬|Part000.blackScholesPrice 1000000000 1000000000 1 (-0.02) 0.2 OptionType.call -
          Part000.blackScholesPrice 1000000000 1000000000 1 (-0.02) 0.2 OptionType.put -
          (1000000000 - 1000000000 * Real.exp (-(-0.02) * 1))| ≤ 1 / 1000000 := by
  have key : Part000.blackScholesPrice 1000000000 1000000000 1 (-0.02) 0.2 OptionType.call -
      Part000.blackScholesPrice 1000000000 1000000000 1 (-0.02) 0.2 OptionType.put -
      (1000000000 - 1000000000 * Real.exp (-(-0.02) * 1)) = 1 := by
    unfold Part000.blackScholesPrice
    dsimp only
    rw [bsD1_c6_value, Real.sqrt_one]
    rw [show -((0 : ℝ) - 0.2 * 1) = 0.2 by norm_num,
      show (0 : ℝ) - 0.2 * 1 = -0.2 by norm_num, neg_zero, normalCDF_zero]
    have h2 : Part000.normalCDF (-0.2) + Part000.normalCDF 0.2 = 1 := by
      have := normalCDF_add_neg (x := (-0.2 : ℝ)) (by norm_num)
      rw [neg_neg] at this
      exact this
    linear_combination (-(1000000000 : ℝ) * Real.exp (-(-0.02) * 1)) * h2
  refine ⟨key, ?_⟩
  rw [key]
  norm_num

/-! ### Bounds for the A&S approximation, used to separate the two Greeks
implementations (C4) -/

/-- Rational bounds on `√2`. -/
theorem sqrt_two_bounds : 1.414 ≤ Real.sqrt 2 ∧ Real.sqrt 2 ≤ 1.41422 := by
  have hsq : Real.sqrt 2 ^ 2 = 2 := Real.sq_sqrt (by norm_num)
  have hnn : 0 ≤ Real.sqrt 2 := Real.sqrt_nonneg 2
  constructor
  · nlinarith [sq_nonneg (Real.sqrt 2 - 1.414)]
  · nlinarith [sq_nonneg (Real.sqrt 2 - 1.41422)]

set_option maxHeartbeats 1000000 in
/-- On `[0.96, 1]` the difference of the Horner polynomial at two ordered
points is at least `2.3` times the difference of the points. -/
theorem erfPoly_diff_lower {t₁ t₂ : ℝ} (h1l : 0.96 ≤ t₁) (h1u : t₁ ≤ 1)
    (h2l : 0.96 ≤ t₂) (h2u : t₂ ≤ 1) (hle : t₂ ≤ t₁) :
    2.3 * (t₁ - t₂) ≤ erfPoly t₁ - erfPoly t₂ := by
  have e1 : (0 : ℝ) ≤ t₁ := by linarith
  have e2 : (0 : ℝ) ≤ t₂ := by linarith
  have p11 : (0 : ℝ) ≤ (t₁ - 0.96) * (t₁ - 0.96) :=
    mul_nonneg (by linarith) (by linarith)
  have p22 : (0 : ℝ) ≤ (t₂ - 0.96) * (t₂ - 0.96) :=
    mul_nonneg (by linarith) (by linarith)
  have p12 : (0 : ℝ) ≤ (t₁ - 0.96) * (t₂ - 0.96) :=
    mul_nonneg (by linarith) (by linarith)
  have hsq1 : 0.9216 ≤ t₁ ^ 2 := by linarith [p11]
  have hsq2 : 0.9216 ≤ t₂ ^ 2 := by linarith [p22]
  have hmul : 0.9216 ≤ t₁ * t₂ := by linarith [p12]
  have u1 : (0 : ℝ) ≤ (1 - t₁) * (1 + t₁) := mul_nonneg (by linarith) (by linarith)
  have u2 : (0 : ℝ) ≤ (1 - t₂) * (1 + t₂) := mul_nonneg (by linarith) (by linarith)
  have hsq1u : t₁ ^ 2 ≤ 1 := by linarith [u1]
  have hsq2u : t₂ ^ 2 ≤ 1 := by linarith [u2]
  have w1 : (0 : ℝ) ≤ (1 - t₁) * t₁ ^ 2 := mul_nonneg (by linarith) (sq_nonneg t₁)
  have w2 : (0 : ℝ) ≤ (1 - t₂) * t₁ ^ 2 := mul_nonneg (by linarith) (sq_nonneg t₁)
  have w3 : (0 : ℝ) ≤ (1 - t₁) * t₂ ^ 2 := mul_nonneg (by linarith) (sq_nonneg t₂)
  have w4 : (0 : ℝ) ≤ (1 - t₂) * t₂ ^ 2 := mul_nonneg (by linarith) (sq_nonneg t₂)
  have hc1 : t₁ ^ 3 ≤ 1 := by linarith [w1]
  have hc2 : t₁ ^ 2 * t₂ ≤ 1 := by linarith [w2]
  have hc3 : t₁ * t₂ ^ 2 ≤ 1 := by linarith [w3]
  have hc4 : t₂ ^ 3 ≤ 1 := by linarith [w4]
  have q1 : (0 : ℝ) ≤ (t₁ ^ 2 - 0.9216) * (t₁ ^ 2 - 0.9216) :=
    mul_nonneg (by linarith) (by linarith)
  have q2 : (0 : ℝ) ≤ (t₁ ^ 2 - 0.9216) * (t₁ * t₂ - 0.9216) :=
    mul_nonneg (by linarith) (by linarith)
  have q3 : (0 : ℝ) ≤ (t₁ ^ 2 - 0.9216) * (t₂ ^ 2 - 0.9216) :=
    mul_nonneg (by linarith) (by linarith)
  have q4 : (0 : ℝ) ≤ (t₁ * t₂ - 0.9216) * (t₂ ^ 2 - 0.9216) :=
    mul_nonneg (by linarith) (by linarith)
  have q5 : (0 : ℝ) ≤ (t₂ ^ 2 - 0.9216) * (t₂ ^ 2 - 0.9216) :=
    mul_nonneg (by linarith) (by linarith)
  have hq1 : 0.84934656 ≤ t₁ ^ 4 := by linarith [q1]
  have hq2 : 0.84934656 ≤ t₁ ^ 3 * t₂ := by linarith [q2]
  have hq3 : 0.84934656 ≤ t₁ ^ 2 * t₂ ^ 2 := by linarith [q3]
  have hq4 : 0.84934656 ≤ t₁ * t₂ ^ 3 := by linarith [q4]
  have hq5 : 0.84934656 ≤ t₂ ^ 4 := by linarith [q5]
  have hfac : erfPoly t₁ - erfPoly t₂ = (t₁ - t₂) *
      (c_a1 + c_a2 * (t₁ + t₂) + c_a3 * (t₁ ^ 2 + t₁ * t₂ + t₂ ^ 2) +
        c_a4 * (t₁ ^ 3 + t₁ ^ 2 * t₂ + t₁ * t₂ ^ 2 + t₂ ^ 3) +
        c_a5 * (t₁ ^ 4 + t₁ ^ 3 * t₂ + t₁ ^ 2 * t₂ ^ 2 + t₁ * t₂ ^ 3 + t₂ ^ 4)) := by
    unfold erfPoly c_a1 c_a2 c_a3 c_a4 c_a5
    ring
  have hB : 2.3 ≤ c_a1 + c_a2 * (t₁ + t₂) + c_a3 * (t₁ ^ 2 + t₁ * t₂ + t₂ ^ 2) +
      c_a4 * (t₁ ^ 3 + t₁ ^ 2 * t₂ + t₁ * t₂ ^ 2 + t₂ ^ 3) +
      c_a5 * (t₁ ^ 4 + t₁ ^ 3 * t₂ + t₁ ^ 2 * t₂ ^ 2 + t₁ * t₂ ^ 3 + t₂ ^ 4) := by
    simp only [c_a1, c_a2, c_a3, c_a4, c_a5]
    linarith
  rw [hfac]
  have hD : (0 : ℝ) ≤ t₁ - t₂ := by linarith
  linarith [mul_le_mul_of_nonneg_right hB hD]

/-- On `[0.96, 1]` the Horner polynomial is non-negative. -/
theorem erfPoly_nonneg_on {t : ℝ} (hl : 0.96 ≤ t) (hu : t ≤ 1) :
    0 ≤ erfPoly t := by
  have e : (0 : ℝ) ≤ t := by linarith
  have p : (0 : ℝ) ≤ (t - 0.96) * (t - 0.96) := mul_nonneg (by linarith) (by linarith)
  have hsq : 0.9216 ≤ t ^ 2 := by linarith [p]
  have u : (0 : ℝ) ≤ (1 - t) * (1 + t) := mul_nonneg (by linarith) (by linarith)
  have hsqu : t ^ 2 ≤ 1 := by linarith [u]
  have c : (0 : ℝ) ≤ (t - 0.96) * (t ^ 2 - 0.9216) := mul_nonneg (by linarith) (by linarith)
  have hcu : 0.884736 ≤ t ^ 3 := by linarith [c]
  have uq : (0 : ℝ) ≤ (1 - t ^ 2) * (1 + t ^ 2) := mul_nonneg (by linarith) (by positivity)
  have hq : t ^ 4 ≤ 1 := by linarith [uq]
  have f : (0 : ℝ) ≤ (t ^ 2 - 0.9216) * (t ^ 3 - 0.884736) := mul_nonneg (by linarith) (by linarith)
  have h5 : 0.8153726976 ≤ t ^ 5 := by linarith [f]
  have hexp : erfPoly t = c_a1 * t + c_a2 * t ^ 2 + c_a3 * t ^ 3 + c_a4 * t ^ 4 + c_a5 * t ^ 5 := by
    unfold erfPoly
    ring
  rw [hexp]
  simp only [c_a1, c_a2, c_a3, c_a4, c_a5]
  linarith

set_option maxHeartbeats 1000000 in
/-- Key gap lemma: on `[0, 0.1]` the `part_001` A&S `erf` branch `erfY` grows
by at least half the argument gap. -/
theorem erfY_gap {z₁ z₂ : ℝ} (h0 : 0 ≤ z₁) (h12 : z₁ < z₂) (h2 : z₂ ≤ 0.1) :
    Part001.erfY z₁ + (z₂ - z₁) / 2 ≤ Part001.erfY z₂ := by
  have hcp : c_p = 0.3275911 := rfl
  have hz1le : z₁ ≤ 0.1 := le_trans h12.le h2
  have hz2nn : (0 : ℝ) ≤ z₂ := le_trans h0 h12.le
  have hd1 : (0 : ℝ) < 1.0 + c_p * z₁ := by rw [hcp]; linarith
  have hd2 : (0 : ℝ) < 1.0 + c_p * z₂ := by rw [hcp]; linarith
  unfold Part001.erfY
  dsimp only
  set t₁ : ℝ := 1.0 / (1.0 + c_p * z₁) with ht₁
  set t₂ : ℝ := 1.0 / (1.0 + c_p * z₂) with ht₂
  have ht₁u : t₁ ≤ 1 := by
    rw [ht₁, div_le_one hd1, hcp]; linarith
  have ht₂u : t₂ ≤ 1 := by
    rw [ht₂, div_le_one hd2, hcp]; linarith
  have ht₁l : 0.96 ≤ t₁ := by
    rw [ht₁, le_div_iff hd1, hcp]; linarith
  have ht₂l : 0.96 ≤ t₂ := by
    rw [ht₂, le_div_iff hd2, hcp]; linarith
  have htt : t₂ ≤ t₁ := by
    rw [ht₁, ht₂, div_le_div_iff hd2 hd1, hcp]; linarith
  have hident : t₁ - t₂ = c_p * (z₂ - z₁) * (t₁ * t₂) := by
    rw [ht₁, ht₂]
    field_simp
    ring
  have habmul : 0.9216 ≤ t₁ * t₂ := by
    linarith [mul_nonneg (sub_nonneg.2 ht₁l) (sub_nonneg.2 ht₂l)]
  have hdiff : 0.3 * (z₂ - z₁) ≤ t₁ - t₂ := by
    rw [hident, hcp]
    linarith [mul_nonneg (by linarith : (0 : ℝ) ≤ z₂ - z₁)
      (by linarith [habmul] : (0 : ℝ) ≤ 0.3275911 * (t₁ * t₂) - 0.3)]
  have hQd := erfPoly_diff_lower ht₁l ht₁u ht₂l ht₂u htt
  have hP1 := erfPoly_nonneg_on ht₁l ht₁u
  have hEmono : Real.exp (-(z₂ * z₂)) ≤ Real.exp (-(z₁ * z₁)) := by
    apply Real.exp_le_exp.2
    linarith [mul_nonneg (by linarith : (0 : ℝ) ≤ z₂ - z₁) (by linarith : (0 : ℝ) ≤ z₂ + z₁)]
  have hE2 : 0.99 ≤ Real.exp (-(z₂ * z₂)) := by
    linarith [Real.add_one_le_exp (-(z₂ * z₂)),
      mul_nonneg (by linarith : (0 : ℝ) ≤ 0.1 - z₂) (by linarith : (0 : ℝ) ≤ 0.1 + z₂)]
  have h69 : 0.69 * (z₂ - z₁) ≤ erfPoly t₁ - erfPoly t₂ := by linarith
  have hPd : (0 : ℝ) ≤ erfPoly t₁ - erfPoly t₂ := by linarith
  have hprod1 : 0 ≤ erfPoly t₁ * (Real.exp (-(z₁ * z₁)) - Real.exp (-(z₂ * z₂))) :=
    mul_nonneg hP1 (by linarith)
  have hprod2 : 0.69 * (z₂ - z₁) * 0.99 ≤
      (erfPoly t₁ - erfPoly t₂) * Real.exp (-(z₂ * z₂)) :=
    mul_le_mul h69 hE2 (by norm_num) hPd
  linarith [hprod1, hprod2]

/-- For positive `w`, `N(w) − N(−w) = erfY(w/√2)` in the `part_001`
service (the sign branches of `erf` cancel). -/
theorem normalN_sub_neg {w : ℝ} (hw : 0 < w) :
    Part001.normalN w - Part001.normalN (-w) = Part001.erfY (w / Real.sqrt 2) := by
  unfold Part001.normalN Part001.erf
  have h2 : (0 : ℝ) < Real.sqrt 2 := Real.sqrt_pos.2 (by norm_num)
  have hw2 : 0 < w / Real.sqrt 2 := div_pos hw h2
  rw [neg_div]
  rw [if_neg (not_lt.2 hw2.le), if_pos (by linarith : -(w / Real.sqrt 2) < 0)]
  rw [abs_neg, abs_of_pos hw2]
  ring

/-- At-the-money `part_001` call price with `S = K = 100` and `r = 0`:
`100·erfY(sigma·√T/(2·√2))`. -/
theorem blackScholes_atm_call (T sigma : ℝ) (hT : 0 < T) (hsigma : 0 < sigma) :
    Part001.blackScholes 100 100 T 0 sigma OptionType.call =
      100 * Part001.erfY (sigma * Real.sqrt T / (2 * Real.sqrt 2)) := by
  have hsT : 0 < Real.sqrt T := Real.sqrt_pos.2 hT
  have hTT : Real.sqrt T * Real.sqrt T = T := Real.mul_self_sqrt hT.le
  unfold Part001.blackScholes
  dsimp only
  have hd1 : (Real.log ((100 : ℝ) / 100) + (0 + 0.5 * sigma * sigma) * T) /
      (sigma * Real.sqrt T) = sigma * Real.sqrt T / 2 := by
    rw [show (100 : ℝ) / 100 = 1 by norm_num, Real.log_one]
    rw [div_eq_iff (by positivity : sigma * Real.sqrt T ≠ 0)]
    linear_combination (-(0.5 * sigma * sigma)) * hTT
  rw [hd1]
  rw [show sigma * Real.sqrt T / 2 - sigma * Real.sqrt T = -(sigma * Real.sqrt T / 2) by ring]
  rw [show -(0 : ℝ) * T = 0 by ring, Real.exp_zero]
  have hw : 0 < sigma * Real.sqrt T / 2 := by positivity
  have hsub := normalN_sub_neg hw
  rw [show sigma * Real.sqrt T / 2 / Real.sqrt 2 = sigma * Real.sqrt T / (2 * Real.sqrt 2) from
    by rw [div_div]] at hsub
  linear_combination 100 * hsub

/-- The analytic (part_000) ATM vega at `S=K=100, T=1, r=0, sigma=0.2` is at
most 0.4 (it is `normalPDF 0.1`, scaled by the /100 convention). -/
theorem part000_atm_vega_le :
    (Part000.calculateGreeks 100 100 1 0 0.2 OptionType.call).vega ≤ 0.4 := by
  unfold Part000.calculateGreeks Part000.calculateVega
  dsimp only
  rw [bsD1_atm_value, Real.sqrt_one]
  have hpdf : Part000.normalPDF 0.1 ≤ 0.4 := by
    unfold Part000.normalPDF
    have h1 : Real.exp (-0.5 * 0.1 * 0.1) ≤ 1 := by
      calc Real.exp (-0.5 * 0.1 * 0.1) ≤ Real.exp 0 := Real.exp_le_exp.2 (by norm_num)
        _ = 1 := Real.exp_zero
    have h625 : Real.sqrt 6.25 = 2.5 := by
      rw [show (6.25 : ℝ) = 2.5 ^ 2 by norm_num, Real.sqrt_sq (by norm_num)]
    have h2 : (2.5 : ℝ) ≤ Real.sqrt (2 * Real.pi) := by
      rw [← h625]
      apply Real.sqrt_le_sqrt
      nlinarith [Real.pi_gt_3141592]
    have hpos : (0 : ℝ) < Real.sqrt (2 * Real.pi) := by positivity
    rw [div_le_iff hpos]
    nlinarith
  linarith [hpdf]

/-- The analytic (part_000) ATM theta at `S=K=100, T=1, r=0, sigma=0.2` is
strictly negative. -/
theorem part000_atm_theta_neg :
    (Part000.calculateGreeks 100 100 1 0 0.2 OptionType.call).theta < 0 := by
  unfold Part000.calculateGreeks Part000.calculateVega
  dsimp only
  rw [bsD1_atm_value, Real.sqrt_one]
  have hpdfpos : 0 < Part000.normalPDF 0.1 := by
    unfold Part000.normalPDF
    positivity
  linarith [hpdfpos]

/-- The finite-difference (part_001) ATM vega at the same inputs is at least
17 (about 100 times the analytic value). -/
theorem part001_atm_vega_ge :
    17 ≤ (Part001.calculateGreeks 100 100 1 0 0.2 OptionType.call).vega := by
  unfold Part001.calculateGreeks
  dsimp only
  rw [blackScholes_atm_call 1 (0.2 + 0.001) (by norm_num) (by norm_num),
    blackScholes_atm_call 1 0.2 (by norm_num) (by norm_num), Real.sqrt_one]
  obtain ⟨hs2l, hs2u⟩ := sqrt_two_bounds
  have h2s : (0 : ℝ) < 2 * Real.sqrt 2 := by linarith
  have hz1nn : (0 : ℝ) ≤ 0.2 * 1 / (2 * Real.sqrt 2) := by positivity
  have hz12 : 0.2 * 1 / (2 * Real.sqrt 2) < (0.2 + 0.001) * 1 / (2 * Real.sqrt 2) :=
    (div_lt_div_right h2s).2 (by norm_num)
  have hz2le : (0.2 + 0.001) * 1 / (2 * Real.sqrt 2) ≤ 0.1 := by
    rw [div_le_iff h2s]
    linarith
  have hgap := erfY_gap hz1nn hz12 hz2le
  rw [le_div_iff (by norm_num : (0 : ℝ) < 0.001)]
  have hdz : 0.00035 ≤ (0.2 + 0.001) * 1 / (2 * Real.sqrt 2) - 0.2 * 1 / (2 * Real.sqrt 2) := by
    rw [div_sub_div_same, le_div_iff h2s]
    linarith
  linarith [hgap, hdz]

/-- The finite-difference (part_001) ATM theta at the same inputs is
strictly positive (the analytic one is negative: opposite sign and a /365
scale apart). -/
theorem part001_atm_theta_pos :
    0 < (Part001.calculateGreeks 100 100 1 0 0.2 OptionType.call).theta := by
  unfold Part001.calculateGreeks
  dsimp only
  rw [blackScholes_atm_call (1 - 0.001) 0.2 (by norm_num) (by norm_num),
    blackScholes_atm_call 1 0.2 (by norm_num) (by norm_num), Real.sqrt_one]
  obtain ⟨hs2l, hs2u⟩ := sqrt_two_bounds
  have h2s : (0 : ℝ) < 2 * Real.sqrt 2 := by linarith
  have hsq999 : Real.sqrt (1 - 0.001) < 1 := by
    have h := Real.sqrt_lt_sqrt (by norm_num : (0 : ℝ) ≤ 1 - 0.001)
      (by norm_num : (1 : ℝ) - 0.001 < 1)
    rwa [Real.sqrt_one] at h
  have hsqnn : 0 ≤ Real.sqrt (1 - 0.001) := Real.sqrt_nonneg _
  have hz1nn : (0 : ℝ) ≤ 0.2 * Real.sqrt (1 - 0.001) / (2 * Real.sqrt 2) := by positivity
  have hz12 : 0.2 * Real.sqrt (1 - 0.001) / (2 * Real.sqrt 2) <
      0.2 * 1 / (2 * Real.sqrt 2) :=
    (div_lt_div_right h2s).2 (by linarith)
  have hz2le : 0.2 * 1 / (2 * Real.sqrt 2) ≤ 0.1 := by
    rw [div_le_iff h2s]
    linarith
  have hgap := erfY_gap hz1nn hz12 hz2le
  apply div_pos
  · linarith [hgap, hz12]
  · norm_num

/-- Claim C4: the analytic Greeks of `part_000` (theta /365, vega /100) and
the finite-difference Greeks of `part_001` (raw per-year theta, per-unit
vega) disagree at the valid input `S=100, K=100, T=1, r=0, sigma=0.2,
kind=call`: the thetas have opposite signs and the vegas differ by about a
factor 100, so the two embedded functions are not equal. -/
theorem c4_two_greeks_implementations_disagree :
    (Part000.calculateGreeks 100 100 1 0 0.2 OptionType.call).theta ≠
        (Part001.calculateGreeks 100 100 1 0 0.2 OptionType.call).theta ∧
      (Part000.calculateGreeks 100 100 1 0 0.2 OptionType.call).vega ≠
        (Part001.calculateGreeks 100 100 1 0 0.2 OptionType.call).vega := by
  constructor
  · exact ne_of_lt (lt_trans part000_atm_theta_neg part001_atm_theta_pos)
  · exact ne_of_lt (lt_of_le_of_lt part000_atm_vega_le
      (lt_of_lt_of_le (by norm_num) part001_atm_vega_ge))
